import Mathlib

/-!
Verification of the avalanche repository excerpt (evaluation-plugin tutorial
notebook `notebooks/from-zero-to-hero-tutorial/05_evaluation.ipynb` and the CI
workflow `unit-test.yml`) against its natural-language specification.

The excerpt contains only a tutorial notebook and a CI manifest; the library
classes it exercises (`Accuracy`, `TaskAwareAccuracy`, `Forgetting`,
`SplitMNIST`, `EvaluationPlugin`, the metric helper constructors) are part of
this repository but are not in the excerpt, so they are modelled from the
specification and from the notebook's documentation cells and expected
outputs, as indicated in each doc comment.  The notebook's own code cells
(`MyPluginMetric`) and the CI workflow are embedded directly from the source.
-/

/-! ## Generic Python-dictionary model: insertion-ordered association lists -/

/-- Lookup in an insertion-ordered association list (the model of a Python
`dict`): the value bound to the first matching key, if any. -/
def alistLookup {κ α : Type} [DecidableEq κ] : List (κ × α) → κ → Option α
  | [], _ => none
  | (k', v) :: rest, k => if k' = k then some v else alistLookup rest k

/-- Assignment `d[k] = v` on an insertion-ordered association list: overwrite
the binding in place when the key is present, append it otherwise. -/
def alistSet {κ α : Type} [DecidableEq κ] : List (κ × α) → κ → α → List (κ × α)
  | [], k, v => [(k, v)]
  | (k', v') :: rest, k, v =>
    if k' = k then (k', v) :: rest else (k', v') :: alistSet rest k v

/-! ## The standalone `Accuracy` metric -/

/-- Modelled from the spec: the `Accuracy` class of
`avalanche.evaluation.metrics` is not in the excerpt.  Per the notebook's
"Standalone metric" cell it monitors the average accuracy over a stream of
`<input, target>` pairs; the state is the number of correct predictions and
the number of samples seen since the last reset. -/
structure Accuracy where
  correct : Nat
  seen : Nat
deriving DecidableEq

/-- A freshly constructed `Accuracy` (initial accuracy is 0). -/
def Accuracy.init : Accuracy := ⟨0, 0⟩

/-- Number of positions at which the true and predicted labels agree. -/
def countCorrect (real_y predicted_y : List Int) : Nat :=
  (List.zip real_y predicted_y).countP (fun q => q.1 = q.2)

/-- Modelled from the spec: `Accuracy.update(real_y, predicted_y)` folds one
batch of `<input, target>` pairs into the running average. -/
def Accuracy.update (s : Accuracy) (real_y predicted_y : List Int) : Accuracy :=
  ⟨s.correct + countCorrect real_y predicted_y, s.seen + real_y.length⟩

/-- Modelled from the spec: `Accuracy.result()` returns the current average
accuracy, `0.0` when no sample has been seen. -/
def Accuracy.result (s : Accuracy) : ℚ :=
  if s.seen = 0 then 0 else (s.correct : ℚ) / (s.seen : ℚ)

/-- Modelled from the spec: `Accuracy.reset()` sets the current average
accuracy to zero. -/
def Accuracy.reset (_ : Accuracy) : Accuracy := ⟨0, 0⟩

/-- A whole sequence of `update` calls, first element applied first. -/
def Accuracy.runUpdates (s : Accuracy) (us : List (List Int × List Int)) : Accuracy :=
  us.foldl (fun a u => a.update u.1 u.2) s

/-- Total number of correct predictions over a sequence of update batches. -/
def totalCorrect (us : List (List Int × List Int)) : Nat :=
  (us.map (fun u => countCorrect u.1 u.2)).sum

/-- Total number of samples over a sequence of update batches. -/
def totalSeen (us : List (List Int × List Int)) : Nat :=
  (us.map (fun u => u.1.length)).sum

/-- `result()` as a Python method call: it returns the current average and
leaves the receiver in the state it found it (the method only reads the
counters). -/
def Accuracy.resultM (s : Accuracy) : ℚ × Accuracy := (s.result, s)

/-- Method calls on an `Accuracy` instance, for stating frame properties. -/
inductive AccOp : Type
  | update (real_y predicted_y : List Int)
  | result

/-- Whether an operation is an `update` call. -/
def AccOp.isUpdate : AccOp → Bool
  | .update _ _ => true
  | .result => false

/-- One method call on an `Accuracy` instance. -/
def Accuracy.step (s : Accuracy) : AccOp → Accuracy
  | .update r p => s.update r p
  | .result => (s.resultM).2

/-- A sequence of method calls on an `Accuracy` instance. -/
def Accuracy.runOps (ops : List AccOp) (s : Accuracy) : Accuracy :=
  ops.foldl Accuracy.step s

/-! ## The standalone `TaskAwareAccuracy` metric -/

/-- Modelled from the spec: the `TaskAwareAccuracy` class of
`avalanche.evaluation.metrics` is not in the excerpt.  Per the notebook it
keeps separate accuracy counters for different task labels and returns a
dictionary mapping task labels to accuracy values; the state is an
insertion-ordered dictionary from task labels to `Accuracy` counters. -/
structure TaskAwareAccuracy where
  entries : List (Int × Accuracy)
deriving DecidableEq

/-- A freshly constructed `TaskAwareAccuracy` (no task seen yet). -/
def TaskAwareAccuracy.init : TaskAwareAccuracy := ⟨[]⟩

/-- Fold a batch into the counter of one task label, touching that entry
only; a label never seen gets a fresh counter appended. -/
def TaskAwareAccuracy.updateEntries :
    List (Int × Accuracy) → List Int → List Int → Int → List (Int × Accuracy)
  | [], r, p, t => [(t, Accuracy.update Accuracy.init r p)]
  | (t', a) :: rest, r, p, t =>
    if t' = t then (t', a.update r p) :: rest
    else (t', a) :: TaskAwareAccuracy.updateEntries rest r p t

/-- Modelled from the spec:
`TaskAwareAccuracy.update(real_y, predicted_y, task_label)` updates the
counter associated with `task_label`. -/
def TaskAwareAccuracy.update (s : TaskAwareAccuracy)
    (real_y predicted_y : List Int) (task_label : Int) : TaskAwareAccuracy :=
  ⟨TaskAwareAccuracy.updateEntries s.entries real_y predicted_y task_label⟩

/-- Modelled from the spec: `TaskAwareAccuracy.result()` returns a dictionary
mapping the task labels seen since the last reset to their accuracies. -/
def TaskAwareAccuracy.result (s : TaskAwareAccuracy) : List (Int × ℚ) :=
  s.entries.map (fun e => (e.1, e.2.result))

/-- Modelled from the spec: `TaskAwareAccuracy.reset()` empties the
dictionary (`result` outputs `{}` again). -/
def TaskAwareAccuracy.reset (_ : TaskAwareAccuracy) : TaskAwareAccuracy := ⟨[]⟩

/-- The task labels currently recorded, in insertion order. -/
def TaskAwareAccuracy.keys (s : TaskAwareAccuracy) : List Int :=
  s.entries.map (fun e => e.1)

/-- The recorded accuracy of one task label, if present. -/
def TaskAwareAccuracy.lookupTask (s : TaskAwareAccuracy) (t : Int) : Option Accuracy :=
  alistLookup s.entries t

/-- A whole sequence of `update` calls: each element carries
`(real_y, predicted_y, task_label)`. -/
def TaskAwareAccuracy.runUpdates (s : TaskAwareAccuracy)
    (us : List (List Int × List Int × Int)) : TaskAwareAccuracy :=
  us.foldl (fun a u => a.update u.1 u.2.1 u.2.2) s

/-- The distinct task labels of a sequence of updates, in first-seen order. -/
def seenLabels (us : List (List Int × List Int × Int)) : List Int :=
  us.foldl (fun acc u => if u.2.2 ∈ acc then acc else acc ++ [u.2.2]) []

/-- `result()` of `TaskAwareAccuracy` as a Python method call: it returns the
dictionary and leaves the receiver unchanged (the method only reads). -/
def TaskAwareAccuracy.resultM (s : TaskAwareAccuracy) :
    List (Int × ℚ) × TaskAwareAccuracy := (s.result, s)

/-- Method calls on a `TaskAwareAccuracy` instance. -/
inductive TaskAccOp : Type
  | update (real_y predicted_y : List Int) (task_label : Int)
  | result

/-- Whether an operation is an `update` call. -/
def TaskAccOp.isUpdate : TaskAccOp → Bool
  | .update _ _ _ => true
  | .result => false

/-- One method call on a `TaskAwareAccuracy` instance. -/
def TaskAwareAccuracy.step (s : TaskAwareAccuracy) : TaskAccOp → TaskAwareAccuracy
  | .update r p t => s.update r p t
  | .result => (s.resultM).2

/-- A sequence of method calls on a `TaskAwareAccuracy` instance. -/
def TaskAwareAccuracy.runOps (ops : List TaskAccOp) (s : TaskAwareAccuracy) :
    TaskAwareAccuracy :=
  ops.foldl TaskAwareAccuracy.step s

/-! ## The tutorial's `MyPluginMetric` (notebook cell "Implement your own
metric", plugin part) -/

/-- The training clock the strategy exposes to plugin metrics. -/
structure ClockState where
  train_iterations : Nat
deriving DecidableEq

/-- The slice of the current experience a plugin metric reads. -/
structure ExperienceInfo where
  task_labels : List Int
deriving DecidableEq

/-- Modelled from the spec: the strategy object passed to plugin-metric
callbacks (`PluggableStrategy`) is not in the excerpt; it carries the fields
the notebook's `MyPluginMetric` reads: the current experience, the minibatch
task ids, the minibatch model output and target, and the clock. -/
structure Strategy where
  experience : ExperienceInfo
  mb_task_id : List Int
  mb_output : List Int
  mb_y : List Int
  clock : ClockState
deriving DecidableEq

/-- A metric value emitted to the evaluator: name, value and plot position
(from `MetricValue(self, metric_name, v, plot_x_position)`). -/
structure MetricValue where
  metric_name : String
  value : ℚ
  plot_x_position : Nat
deriving DecidableEq

/-- The Python exceptions the notebook cell can raise. -/
inductive PyError : Type
  | attributeError (attr : String)
  | typeError (msg : String)
  | indexError (msg : String)
deriving DecidableEq

/-- The attribute store of a `MyPluginMetric` Python object: the attributes
assigned on `self`, by name.  `__init__` assigns exactly one attribute,
`_accuracy_metric`; reading any other attribute name raises
`AttributeError`. -/
structure MyPluginMetricState where
  attrs : List (String × Accuracy)
deriving DecidableEq

/-- `MyPluginMetric.__init__`: `self._accuracy_metric = Accuracy()`. -/
def MyPluginMetric.init : MyPluginMetricState :=
  ⟨[("_accuracy_metric", Accuracy.init)]⟩

/-- Python attribute read `self.<attr>`: the value when assigned, an
`AttributeError` otherwise. -/
def MyPluginMetricState.getattr (s : MyPluginMetricState) (attr : String) :
    Except PyError Accuracy :=
  match alistLookup s.attrs attr with
  | some m => Except.ok m
  | none => Except.error (PyError.attributeError attr)

/-- Python attribute write `self.<attr> = m`. -/
def MyPluginMetricState.setattr (s : MyPluginMetricState) (attr : String)
    (m : Accuracy) : MyPluginMetricState :=
  ⟨alistSet s.attrs attr m⟩

/-- `MyPluginMetric.reset`: `self._accuracy_metric.reset()`. -/
def MyPluginMetric.reset (s : MyPluginMetricState) :
    Except PyError MyPluginMetricState :=
  match s.getattr "_accuracy_metric" with
  | Except.error e => Except.error e
  | Except.ok m => Except.ok (s.setattr "_accuracy_metric" (m.reset))

/-- `MyPluginMetric.result`: `return self._accuracy_metric.result()`. -/
def MyPluginMetric.result (s : MyPluginMetricState) : Except PyError ℚ :=
  match s.getattr "_accuracy_metric" with
  | Except.error e => Except.error e
  | Except.ok m => Except.ok (m.result)

/-- The `task_labels` computation at the top of `after_training_iteration`:
per-pattern ids when the experience defines more than one task label,
otherwise `task_labels[0]` (an `IndexError` when the list is empty). -/
def MyPluginMetric.taskLabels (strat : Strategy) : Except PyError (Sum (List Int) Int) :=
  if strat.experience.task_labels.length > 1 then
    Except.ok (Sum.inl strat.mb_task_id)
  else
    match strat.experience.task_labels with
    | [] => Except.error (PyError.indexError "task_labels[0]")
    | l :: _ => Except.ok (Sum.inr l)

/-- `MyPluginMetric.after_training_iteration`: the source then invokes
`self._accuracy_metric.update(strategy.mb_output, strategy.mb_y, task_labels)`
with three arguments, while `Accuracy.update` (notebook, "Standalone metric"
cell) takes the two arguments `real_y, predicted_y`; in Python the call
raises `TypeError`, and the metric state is left unchanged. -/
def MyPluginMetric.after_training_iteration (s : MyPluginMetricState)
    (strat : Strategy) : Except PyError MyPluginMetricState :=
  match MyPluginMetric.taskLabels strat with
  | Except.error e => Except.error e
  | Except.ok _ =>
    match s.getattr "_accuracy_metric" with
    | Except.error e => Except.error e
    | Except.ok _ =>
      Except.error (PyError.typeError "update() takes 3 positional arguments but 4 were given")

/-- `MyPluginMetric.before_training_epoch`: `self.reset()`. -/
def MyPluginMetric.before_training_epoch (s : MyPluginMetricState)
    (_strat : Strategy) : Except PyError MyPluginMetricState :=
  MyPluginMetric.reset s

/-- `MyPluginMetric._package_result`: its first statement is
`metric_value = self.accuracy_metric.result()` — the attribute read is of
`accuracy_metric`, while `__init__` assigned `_accuracy_metric`, so the read
raises `AttributeError` before anything is packaged.  Were the read to
succeed, the `Accuracy` result is a float, so the non-dictionary branch would
build one `MetricValue` named by the metric at the clock's position. -/
def MyPluginMetric._package_result (s : MyPluginMetricState) (strat : Strategy) :
    Except PyError (List MetricValue) :=
  match s.getattr "accuracy_metric" with
  | Except.error e => Except.error e
  | Except.ok m =>
    Except.ok [⟨"Top1_Acc_Epoch", m.result, strat.clock.train_iterations⟩]

/-- `MyPluginMetric.after_training_epoch`:
`return self._package_result(strategy)`. -/
def MyPluginMetric.after_training_epoch (s : MyPluginMetricState)
    (strat : Strategy) : Except PyError (List MetricValue) :=
  MyPluginMetric._package_result s strat

/-- The lifecycle callback points at which a training/evaluation loop invokes
its plugin metrics (before/after training and evaluation, experience,
epoch and iteration). -/
inductive Callback : Type
  | before_training
  | before_training_exp
  | before_training_epoch
  | before_training_iteration
  | after_training_iteration
  | after_training_epoch
  | after_training_exp
  | after_training
  | before_eval
  | before_eval_exp
  | before_eval_iteration
  | after_eval_iteration
  | after_eval_exp
  | after_eval
deriving DecidableEq

/-- Modelled from the spec: the loop dispatches each lifecycle callback to the
plugin metric; `PluginMetric` handlers that `MyPluginMetric` does not override
are inherited no-ops, so every callback other than `before_training_epoch`,
`after_training_iteration` and `after_training_epoch` leaves the state
unchanged and emits nothing. -/
def MyPluginMetric.dispatch (e : Callback) (strat : Strategy)
    (s : MyPluginMetricState) :
    Except PyError (MyPluginMetricState × List MetricValue) :=
  match e with
  | Callback.before_training_epoch =>
    (MyPluginMetric.before_training_epoch s strat).map (fun s' => (s', []))
  | Callback.after_training_iteration =>
    (MyPluginMetric.after_training_iteration s strat).map (fun s' => (s', []))
  | Callback.after_training_epoch =>
    (MyPluginMetric.after_training_epoch s strat).map (fun vs => (s, vs))
  | _ => Except.ok (s, [])

/-- A concrete strategy snapshot, as in the notebook's single-task setting. -/
def exampleStrategy : Strategy :=
  ⟨⟨[0]⟩, [0, 0], [1, 0], [1, 2], ⟨7⟩⟩

/-! ## The forgetting metric -/

/-- Modelled from the spec: the `Forgetting` metric behind
`forgetting_metrics` is not in the excerpt.  Per the spec it is the "drop in
performance on a previously learned task after learning new tasks"; the state
keeps, per experience, the performance recorded when the experience was first
learned and the performance recorded most recently. -/
structure Forgetting where
  initial : List (Nat × ℚ)
  last : List (Nat × ℚ)
deriving DecidableEq

/-- A fresh forgetting metric: nothing recorded yet. -/
def Forgetting.init : Forgetting := ⟨[], []⟩

/-- Record the performance measured on experience `k` when it was first
learned. -/
def Forgetting.setInitial (f : Forgetting) (k : Nat) (v : ℚ) : Forgetting :=
  ⟨alistSet f.initial k v, f.last⟩

/-- Record the most recent performance measured on experience `k`. -/
def Forgetting.setLast (f : Forgetting) (k : Nat) (v : ℚ) : Forgetting :=
  ⟨f.initial, alistSet f.last k v⟩

/-- Modelled from the spec: the forgetting value emitted for experience `k`
is its first-learned performance minus its most recent performance, defined
once both have been recorded. -/
def Forgetting.result (f : Forgetting) (k : Nat) : Option ℚ :=
  match alistLookup f.initial k, alistLookup f.last k with
  | some a, some b => some (a - b)
  | _, _ => none

/-- One evaluation record after training experience `j`: the performance `v`
measured on experience `k` counts as first-learned when `k` is the experience
just trained (`k = j`), and as a later re-measurement otherwise. -/
def Forgetting.recordEval (j k : Nat) (v : ℚ) (f : Forgetting) : Forgetting :=
  if k = j then f.setInitial k v else f.setLast k v

/-- Modelled from the spec: the evaluation pass after training experience `j`
measures every experience learned so far; `evalStream perf j f n` folds in
the measurements on experiences `0 … n`, where `perf k j` is the performance
on experience `k` after training through experience `j`. -/
def Forgetting.evalStream (perf : Nat → Nat → ℚ) (j : Nat) (f : Forgetting) :
    Nat → Forgetting
  | 0 => Forgetting.recordEval j 0 (perf 0 j) f
  | n + 1 =>
    Forgetting.recordEval j (n + 1) (perf (n + 1) j)
      (Forgetting.evalStream perf j f n)

/-- Modelled from the spec: a continual-learning run over experiences
`0 … j` — after training each experience, the experiences learned so far are
evaluated and fed to the forgetting metric. -/
def Forgetting.trainRun (perf : Nat → Nat → ℚ) : Nat → Forgetting
  | 0 => Forgetting.evalStream perf 0 Forgetting.init 0
  | j + 1 =>
    Forgetting.evalStream perf (j + 1) (Forgetting.trainRun perf j) (j + 1)

/-! ## `SplitMNIST` benchmarks: experience streams -/

/-- An experience of a benchmark stream, carrying its own data subset of
`(sample id, class label)` pairs. -/
structure Experience where
  dataSubset : List (Nat × Nat)
deriving DecidableEq

/-- Modelled from the spec: `SplitMNIST(n_experiences=n)` is not in the
excerpt; per the spec a benchmark splits the dataset by class into `n`
experiences, each carrying its own subset.  Experience `i` of the split
carries the samples whose class label `l` satisfies `l % n = i` (which
class lands in which experience is irrelevant to the claims; the groups
partition the classes). -/
def splitExperience (n : Nat) (data : List (Nat × Nat)) (i : Nat) : Experience :=
  ⟨data.filter (fun s => s.2 % n = i)⟩

/-- A benchmark: its training stream and its test stream. -/
structure Benchmark where
  train_stream : List Experience
  test_stream : List Experience
deriving DecidableEq

/-- Modelled from the spec: `SplitMNIST(n_experiences=n)` over a training set
and a test set — each stream is the sequence of the `n` class-split
experiences over its own dataset. -/
def SplitMNIST (n : Nat) (trainData testData : List (Nat × Nat)) : Benchmark :=
  ⟨(List.range n).map (splitExperience n trainData),
   (List.range n).map (splitExperience n testData)⟩

/-! ## The dictionary returned by `strategy.train` / `strategy.eval` -/

/-- Modelled from the spec: the strategy's `train`/`eval` methods and the
`EvaluationPlugin` result collection are not in the excerpt.  Per the
notebook, during one `train`/`eval` call the attached plugin records a
sequence of (metric name, value) emissions, and the call returns "a
dictionary storing, for each metric, the last value recorded for that
metric": each emission overwrites the dictionary entry of its metric. -/
def lastMetricValues (emissions : List (String × ℚ)) : List (String × ℚ) :=
  emissions.foldl (fun d e => alistSet d e.1 e.2) []

/-- The last value emitted for a metric name during a call, if any. -/
def lastEmitted (emissions : List (String × ℚ)) (k : String) : Option ℚ :=
  (emissions.reverse.find? (fun e => e.1 = k)).map (fun e => e.2)

/-! ## The metric helper constructors and the `EvaluationPlugin` -/

/-- The kinds of metric the evaluation module's helper constructors cover. -/
inductive MetricKind : Type
  | accuracy
  | loss
  | forgetting
  | bwt
  | confusionMatrix
  | cpuUsage
  | diskUsage
  | gpuUsage
  | mac
  | ramUsage
  | timing
deriving DecidableEq

/-- The lifecycle granularities at which a plugin metric emits its curve. -/
inductive Granularity : Type
  | minibatch
  | epoch
  | experience
  | stream
deriving DecidableEq

/-- A plugin metric as produced by the helper constructors: a metric kind
emitting at one granularity. -/
structure PluginMetricSpec where
  kind : MetricKind
  level : Granularity
deriving DecidableEq

/-- Build the list of plugin metrics a helper returns: one per enabled
granularity flag. -/
def metricsOf (kind : MetricKind) (minibatch epoch experience stream : Bool) :
    List PluginMetricSpec :=
  (if minibatch then [⟨kind, Granularity.minibatch⟩] else []) ++
  (if epoch then [⟨kind, Granularity.epoch⟩] else []) ++
  (if experience then [⟨kind, Granularity.experience⟩] else []) ++
  (if stream then [⟨kind, Granularity.stream⟩] else [])

/-- Modelled from the spec: `accuracy_metrics(minibatch, epoch, experience,
stream)` of `avalanche.evaluation.metrics` (implementation not in the
excerpt) returns the accuracy plugin metrics for the enabled flags. -/
def accuracy_metrics (minibatch epoch experience stream : Bool) :
    List PluginMetricSpec :=
  metricsOf MetricKind.accuracy minibatch epoch experience stream

/-- Modelled from the spec: `loss_metrics(minibatch, epoch, experience,
stream)`. -/
def loss_metrics (minibatch epoch experience stream : Bool) :
    List PluginMetricSpec :=
  metricsOf MetricKind.loss minibatch epoch experience stream

/-- Modelled from the spec: `forgetting_metrics(experience, stream)`. -/
def forgetting_metrics (experience stream : Bool) : List PluginMetricSpec :=
  metricsOf MetricKind.forgetting false false experience stream

/-- Modelled from the spec: `bwt_metrics(experience, stream)` (backward
transfer). -/
def bwt_metrics (experience stream : Bool) : List PluginMetricSpec :=
  metricsOf MetricKind.bwt false false experience stream

/-- Modelled from the spec: `confusion_matrix_metrics(num_classes,
save_image, stream)`; the class count and image flag configure the metric
and do not change which plugin metrics are produced. -/
def confusion_matrix_metrics (_num_classes : Nat) (_save_image : Bool)
    (stream : Bool) : List PluginMetricSpec :=
  metricsOf MetricKind.confusionMatrix false false false stream

/-- Modelled from the spec: `cpu_usage_metrics(experience)`. -/
def cpu_usage_metrics (experience : Bool) : List PluginMetricSpec :=
  metricsOf MetricKind.cpuUsage false false experience false

/-- Modelled from the spec: `disk_usage_metrics(minibatch, epoch, experience,
stream)`. -/
def disk_usage_metrics (minibatch epoch experience stream : Bool) :
    List PluginMetricSpec :=
  metricsOf MetricKind.diskUsage minibatch epoch experience stream

/-- Modelled from the spec: `gpu_usage_metrics(experience)`. -/
def gpu_usage_metrics (experience : Bool) : List PluginMetricSpec :=
  metricsOf MetricKind.gpuUsage false false experience false

/-- Modelled from the spec: `MAC_metrics(minibatch, epoch, experience)`
(multiply-and-accumulate operations). -/
def MAC_metrics (minibatch epoch experience : Bool) : List PluginMetricSpec :=
  metricsOf MetricKind.mac minibatch epoch experience false

/-- Modelled from the spec: `ram_usage_metrics(experience)`. -/
def ram_usage_metrics (experience : Bool) : List PluginMetricSpec :=
  metricsOf MetricKind.ramUsage false false experience false

/-- Modelled from the spec: `timing_metrics(epoch)`. -/
def timing_metrics (epoch : Bool) : List PluginMetricSpec :=
  metricsOf MetricKind.timing false epoch false false

/-- Modelled from the spec: the `EvaluationPlugin` (implementation not in the
excerpt) is constructed from the plugin metrics it must track. -/
structure EvaluationPlugin where
  metrics : List PluginMetricSpec
deriving DecidableEq

/-- Build an `EvaluationPlugin` from helper-constructor results, as in the
notebook: the plugin tracks the concatenation of all the passed lists. -/
def EvaluationPlugin.ofMetrics (ms : List (List PluginMetricSpec)) :
    EvaluationPlugin :=
  ⟨ms.flatten⟩

/-- The eleven helper-constructor results the notebook imports, instantiated
with given flags, all passed together to one `EvaluationPlugin`. -/
def allHelperResults (mb ep ex st sv : Bool) (nc : Nat) :
    List (List PluginMetricSpec) :=
  [accuracy_metrics mb ep ex st,
   loss_metrics mb ep ex st,
   forgetting_metrics ex st,
   bwt_metrics ex st,
   confusion_matrix_metrics nc sv st,
   cpu_usage_metrics ex,
   disk_usage_metrics mb ep ex st,
   gpu_usage_metrics ex,
   MAC_metrics mb ep ex,
   ram_usage_metrics ex,
   timing_metrics ep]

/-! ## The CI unit-test workflow (`unit-test.yml`) -/

/-- A GitHub Actions trigger: the branches and path filters of a `push` or
`pull_request` event. -/
structure TriggerSpec where
  branches : List String
  paths : List String
deriving DecidableEq

/-- One command of the workflow's run script. -/
inductive CiCommand : Type
  | unittestDiscover (dir : String)
  | echoMsg (msg : String)
  | pipUninstall (pkgs : List String)
  | pythonScript (file : String)
  | bashScript (file : String)
  | chdir (dir : String)
  | listDir (dir : String)
deriving DecidableEq

/-- The whole `unit test` workflow: its triggers, its Python-version matrix
and its run script. -/
structure WorkflowSpec where
  pushTrigger : TriggerSpec
  prTrigger : TriggerSpec
  matrixPythonVersions : List String
  runScript : List CiCommand
deriving DecidableEq

/-- The optional packages the workflow uninstalls before re-running the
evaluation-plugin example. -/
def optionalPackages : List String :=
  ["higher", "ctrl-benchmark", "torchaudio", "gym", "pycocotools", "lvis"]

/-- The `unit-test.yml` workflow of the repository, embedded field by
field. -/
def unitTestWorkflow : WorkflowSpec :=
  { pushTrigger :=
      ⟨["master", "detection"],
       ["**.py", ".github/workflows/unit-test.yml", "environment.yml"]⟩
    prTrigger :=
      ⟨["master", "detection"],
       ["**.py", ".github/workflows/unit-test.yml", "environment.yml"]⟩
    matrixPythonVersions := ["3.7", "3.8", "3.9", "3.10"]
    runScript :=
      [CiCommand.unittestDiscover "tests",
       CiCommand.echoMsg "Checking that optional dependencies are not needed",
       CiCommand.pipUninstall optionalPackages,
       CiCommand.pythonScript "examples/eval_plugin.py",
       CiCommand.echoMsg "Running checkpointing tests...",
       CiCommand.bashScript "./tests/checkpointing/test_checkpointing.sh",
       CiCommand.echoMsg "Running distributed training tests...",
       CiCommand.chdir "tests",
       CiCommand.pythonScript "run_dist_tests.py",
       CiCommand.chdir "..",
       CiCommand.echoMsg "While running unit tests, the following datasets were downloaded:",
       CiCommand.listDir "~/.avalanche/data"] }

/-- Semantics of the `&&`-chained run script: given which commands succeed,
the commands that actually execute — each command runs only when every
earlier one succeeded. -/
def andChainRuns (ok : CiCommand → Bool) : List CiCommand → List CiCommand
  | [] => []
  | c :: rest => c :: (if ok c then andChainRuns ok rest else [])

/-! ## Helper lemmas -/

theorem alistLookup_alistSet {κ α : Type} [DecidableEq κ]
    (d : List (κ × α)) (k k' : κ) (v : α) :
    alistLookup (alistSet d k v) k' =
      if k = k' then some v else alistLookup d k' := by
  induction d with
  | nil => simp [alistSet, alistLookup]
  | cons hd tl ih =>
    obtain ⟨k'', v''⟩ := hd
    by_cases h1 : k'' = k
    · subst h1
      by_cases h2 : k'' = k' <;> simp [alistSet, alistLookup, h2]
    · by_cases h2 : k'' = k'
      · subst h2
        have h3 : ¬ k = k'' := fun h => h1 h.symm
        simp [alistSet, alistLookup, h1, h3]
      · simp [alistSet, alistLookup, h1, h2, ih]

theorem countCorrect_le_length (r p : List Int) : countCorrect r p ≤ r.length := by
  calc countCorrect r p ≤ (List.zip r p).length := List.countP_le_length _
  _ ≤ r.length := by simp [List.length_zip]

theorem runUpdates_counts (s : Accuracy) (us : List (List Int × List Int)) :
    (Accuracy.runUpdates s us).correct = s.correct + totalCorrect us ∧
    (Accuracy.runUpdates s us).seen = s.seen + totalSeen us := by
  induction us generalizing s with
  | nil => simp [Accuracy.runUpdates, totalCorrect, totalSeen]
  | cons u us ih =>
    have h := ih (s.update u.1 u.2)
    simp only [Accuracy.runUpdates, List.foldl_cons] at h ⊢
    constructor
    · rw [h.1]
      simp [Accuracy.update, totalCorrect]
      omega
    · rw [h.2]
      simp [Accuracy.update, totalSeen]
      omega

theorem totalCorrect_le_totalSeen (us : List (List Int × List Int)) :
    totalCorrect us ≤ totalSeen us := by
  induction us with
  | nil => simp [totalCorrect, totalSeen]
  | cons u us ih =>
    simp only [totalCorrect, totalSeen, List.map_cons, List.sum_cons] at ih ⊢
    exact Nat.add_le_add (countCorrect_le_length u.1 u.2) ih

/-! ## Claim theorems -/

/-- C2: the standalone `Accuracy` metric maintains a sample-weighted running
average over all pairs seen since the last reset: a fresh or just-reset
metric has `result()` equal to `0.0`; after any sequence of
`update(real_y, predicted_y)` calls, `result()` equals the total number of
correct predictions divided by the total number of samples seen; and the
notebook's two concrete updates yield `0.5` and then `0.75`. -/
theorem accuracy_sample_weighted_running_average :
    Accuracy.result Accuracy.init = 0 ∧
    (∀ s : Accuracy, Accuracy.result (Accuracy.reset s) = 0) ∧
    (∀ us : List (List Int × List Int),
      Accuracy.result (Accuracy.runUpdates Accuracy.init us)
        = (totalCorrect us : ℚ) / (totalSeen us : ℚ)) ∧
    Accuracy.result (Accuracy.update Accuracy.init [1, 2] [1, 0]) = 1 / 2 ∧
    Accuracy.result
      (Accuracy.update (Accuracy.update Accuracy.init [1, 2] [1, 0])
        [1, 2] [1, 2]) = 3 / 4 := by
  refine ⟨by simp [Accuracy.result, Accuracy.init],
    fun s => by simp [Accuracy.result, Accuracy.reset], ?_, ?_, ?_⟩
  · intro us
    obtain ⟨hc, hs⟩ := runUpdates_counts Accuracy.init us
    have hc' : (Accuracy.runUpdates Accuracy.init us).correct = totalCorrect us := by
      rw [hc]
      simp [Accuracy.init]
    have hs' : (Accuracy.runUpdates Accuracy.init us).seen = totalSeen us := by
      rw [hs]
      simp [Accuracy.init]
    simp only [Accuracy.result, hc', hs']
    by_cases h : totalSeen us = 0
    · have h0 : totalCorrect us = 0 :=
        Nat.le_zero.mp (h ▸ totalCorrect_le_totalSeen us)
      simp [h, h0]
    · simp [h]
  · simp [Accuracy.result, Accuracy.update, Accuracy.init, countCorrect]
  · simp [Accuracy.result, Accuracy.update, Accuracy.init, countCorrect]

/-- C3: calling `result()` on a metric (`Accuracy` or `TaskAwareAccuracy`)
does not change the metric state: the state coming back from the call is the
state it received, repeated `result()` calls return equal values, and any
interleaving of `result()` calls between `update()` calls produces the same
final state as the update sequence alone. -/
theorem result_leaves_metric_state_unchanged :
    (∀ s : Accuracy, (Accuracy.resultM s).2 = s) ∧
    (∀ s : Accuracy,
      (Accuracy.resultM (Accuracy.resultM s).2).1 = (Accuracy.resultM s).1) ∧
    (∀ (ops : List AccOp) (s : Accuracy),
      Accuracy.runOps ops s = Accuracy.runOps (ops.filter AccOp.isUpdate) s) ∧
    (∀ s : TaskAwareAccuracy, (TaskAwareAccuracy.resultM s).2 = s) ∧
    (∀ s : TaskAwareAccuracy,
      (TaskAwareAccuracy.resultM (TaskAwareAccuracy.resultM s).2).1
        = (TaskAwareAccuracy.resultM s).1) ∧
    (∀ (ops : List TaskAccOp) (s : TaskAwareAccuracy),
      TaskAwareAccuracy.runOps ops s
        = TaskAwareAccuracy.runOps (ops.filter TaskAccOp.isUpdate) s) := by
  refine ⟨fun s => rfl, fun s => rfl, ?_, fun s => rfl, fun s => rfl, ?_⟩
  · intro ops
    induction ops with
    | nil => exact fun s => rfl
    | cons op ops ih =>
      intro s
      cases op with
      | update r p =>
        simp only [Accuracy.runOps, List.foldl_cons, List.filter_cons,
          AccOp.isUpdate, if_true, Accuracy.step]
        exact ih (s.update r p)
      | result =>
        simp only [Accuracy.runOps, List.foldl_cons, List.filter_cons,
          AccOp.isUpdate, Bool.false_eq_true, if_false, Accuracy.step,
          Accuracy.resultM]
        exact ih s
  · intro ops
    induction ops with
    | nil => exact fun s => rfl
    | cons op ops ih =>
      intro s
      cases op with
      | update r p t =>
        simp only [TaskAwareAccuracy.runOps, List.foldl_cons, List.filter_cons,
          TaskAccOp.isUpdate, if_true, TaskAwareAccuracy.step]
        exact ih (s.update r p t)
      | result =>
        simp only [TaskAwareAccuracy.runOps, List.foldl_cons, List.filter_cons,
          TaskAccOp.isUpdate, Bool.false_eq_true, if_false,
          TaskAwareAccuracy.step, TaskAwareAccuracy.resultM]
        exact ih s

theorem updateEntries_lookup_ne (es : List (Int × Accuracy)) (r p : List Int)
    (t t' : Int) (h : t' ≠ t) :
    alistLookup (TaskAwareAccuracy.updateEntries es r p t) t'
      = alistLookup es t' := by
  have h2 : ¬ (t = t') := fun e => h e.symm
  induction es with
  | nil => simp [TaskAwareAccuracy.updateEntries, alistLookup, h2]
  | cons hd tl ih =>
    obtain ⟨t'', a⟩ := hd
    by_cases h1 : t'' = t
    · subst h1
      simp [TaskAwareAccuracy.updateEntries, alistLookup, h2]
    · simp [TaskAwareAccuracy.updateEntries, alistLookup, h1, ih]

theorem updateEntries_keys (es : List (Int × Accuracy)) (r p : List Int)
    (t : Int) :
    (TaskAwareAccuracy.updateEntries es r p t).map (fun e => e.1)
      = if t ∈ es.map (fun e => e.1) then es.map (fun e => e.1)
        else es.map (fun e => e.1) ++ [t] := by
  induction es with
  | nil => simp [TaskAwareAccuracy.updateEntries]
  | cons hd tl ih =>
    obtain ⟨t'', a⟩ := hd
    by_cases h1 : t'' = t
    · subst h1
      simp [TaskAwareAccuracy.updateEntries]
    · have h1' : ¬ (t = t'') := fun e => h1 e.symm
      by_cases h2 : t ∈ tl.map (fun e => e.1) <;>
        simp [TaskAwareAccuracy.updateEntries, h1, h1', h2, ih]

theorem keys_update (s : TaskAwareAccuracy) (r p : List Int) (t : Int) :
    TaskAwareAccuracy.keys (s.update r p t)
      = if t ∈ TaskAwareAccuracy.keys s then TaskAwareAccuracy.keys s
        else TaskAwareAccuracy.keys s ++ [t] :=
  updateEntries_keys s.entries r p t

theorem runUpdates_keys (us : List (List Int × List Int × Int))
    (s : TaskAwareAccuracy) :
    TaskAwareAccuracy.keys (TaskAwareAccuracy.runUpdates s us)
      = us.foldl (fun acc u => if u.2.2 ∈ acc then acc else acc ++ [u.2.2])
          (TaskAwareAccuracy.keys s) := by
  induction us generalizing s with
  | nil => rfl
  | cons u us ih =>
    simp only [TaskAwareAccuracy.runUpdates, List.foldl_cons] at ih ⊢
    rw [ih (s.update u.1 u.2.1 u.2.2), keys_update]

/-- C4: `TaskAwareAccuracy` keeps a separate accuracy counter per task label
and isolates them: `result()` on a fresh or reset metric is the empty
dictionary; `update(real_y, predicted_y, task_label)` leaves every other
task's recorded counter unchanged; the dictionary's keys are exactly the
task labels seen since the last reset, and the notebook's update sequence
yields accuracy `0.75` for task `0` and `1.0` for task `1`. -/
theorem taskAware_per_task_isolation :
    TaskAwareAccuracy.result TaskAwareAccuracy.init = [] ∧
    (∀ s : TaskAwareAccuracy,
      TaskAwareAccuracy.result (TaskAwareAccuracy.reset s) = []) ∧
    (∀ (s : TaskAwareAccuracy) (r p : List Int) (t t' : Int), t' ≠ t →
      TaskAwareAccuracy.lookupTask (s.update r p t) t'
        = TaskAwareAccuracy.lookupTask s t') ∧
    (∀ us : List (List Int × List Int × Int),
      TaskAwareAccuracy.keys
        (TaskAwareAccuracy.runUpdates TaskAwareAccuracy.init us)
        = seenLabels us) ∧
    TaskAwareAccuracy.result (TaskAwareAccuracy.runUpdates TaskAwareAccuracy.init
      [([1, 2], [1, 0], 0), ([1, 2], [1, 2], 1), ([1, 2], [1, 2], 0)])
      = [(0, 3 / 4), (1, 1)] := by
  refine ⟨rfl, fun s => rfl, ?_, ?_, ?_⟩
  · intro s r p t t' h
    exact updateEntries_lookup_ne s.entries r p t t' h
  · intro us
    rw [runUpdates_keys us TaskAwareAccuracy.init]
    rfl
  · simp [TaskAwareAccuracy.result, TaskAwareAccuracy.runUpdates,
      TaskAwareAccuracy.init, TaskAwareAccuracy.update,
      TaskAwareAccuracy.updateEntries, Accuracy.result, Accuracy.update,
      Accuracy.init, countCorrect]

/-- Witness for C4 at the notebook's inputs: after task `0` and task `1`
have been updated, a further update for task `0` leaves task `1`'s recorded
counter unchanged. -/
theorem taskAware_per_task_isolation_witness :
    (1 : Int) ≠ 0 ∧
    TaskAwareAccuracy.lookupTask
      ((TaskAwareAccuracy.runUpdates TaskAwareAccuracy.init
        [([1, 2], [1, 0], 0), ([1, 2], [1, 2], 1)]).update [1, 2] [1, 2] 0) 1
      = TaskAwareAccuracy.lookupTask
        (TaskAwareAccuracy.runUpdates TaskAwareAccuracy.init
          [([1, 2], [1, 0], 0), ([1, 2], [1, 2], 1)]) 1 :=
  ⟨by decide,
   taskAware_per_task_isolation.2.2.1 _ [1, 2] [1, 2] 0 1 (by decide)⟩
theorem evalStream_initial (perf : Nat → Nat → ℚ) (j : Nat) (f : Forgetting)
    (n q : Nat) :
    alistLookup (Forgetting.evalStream perf j f n).initial q =
      if q = j ∧ j ≤ n then some (perf j j) else alistLookup f.initial q := by
  induction n with
  | zero =>
    simp only [Forgetting.evalStream, Forgetting.recordEval]
    by_cases hj : (0 : Nat) = j
    · rw [if_pos hj]
      subst hj
      simp only [Forgetting.setInitial]
      rw [alistLookup_alistSet]
      by_cases hq : (0 : Nat) = q
      · rw [if_pos hq, if_pos (by omega)]
      · rw [if_neg hq, if_neg (by omega)]
    · rw [if_neg hj]
      simp only [Forgetting.setLast]
      rw [if_neg (by omega)]
  | succ n ih =>
    simp only [Forgetting.evalStream, Forgetting.recordEval]
    by_cases hj : n + 1 = j
    · rw [if_pos hj]
      subst hj
      simp only [Forgetting.setInitial]
      rw [alistLookup_alistSet, ih]
      by_cases hq : n + 1 = q
      · rw [if_pos hq, if_pos (by omega)]
      · rw [if_neg hq, if_neg (by omega), if_neg (by omega)]
    · rw [if_neg hj]
      simp only [Forgetting.setLast]
      rw [ih, if_congr (show (q = j ∧ j ≤ n) ↔ (q = j ∧ j ≤ n + 1) by omega) rfl rfl]

theorem evalStream_last (perf : Nat → Nat → ℚ) (j : Nat) (f : Forgetting)
    (n q : Nat) :
    alistLookup (Forgetting.evalStream perf j f n).last q =
      if q ≤ n ∧ q ≠ j then some (perf q j) else alistLookup f.last q := by
  induction n with
  | zero =>
    simp only [Forgetting.evalStream, Forgetting.recordEval]
    by_cases hj : (0 : Nat) = j
    · rw [if_pos hj]
      subst hj
      simp only [Forgetting.setInitial]
      rw [if_neg (by omega)]
    · rw [if_neg hj]
      simp only [Forgetting.setLast]
      rw [alistLookup_alistSet]
      by_cases hq : (0 : Nat) = q
      · rw [if_pos hq, if_pos (by omega), ← hq]
      · rw [if_neg hq, if_neg (by omega)]
  | succ n ih =>
    simp only [Forgetting.evalStream, Forgetting.recordEval]
    by_cases hj : n + 1 = j
    · rw [if_pos hj]
      subst hj
      simp only [Forgetting.setInitial]
      rw [ih,
        if_congr (show (q ≤ n ∧ q ≠ n + 1) ↔ (q ≤ n + 1 ∧ q ≠ n + 1) by omega)
          rfl rfl]
    · rw [if_neg hj]
      simp only [Forgetting.setLast]
      rw [alistLookup_alistSet, ih]
      by_cases hq : n + 1 = q
      · rw [if_pos hq, if_pos (by omega), ← hq]
      · rw [if_neg hq,
          if_congr (show (q ≤ n ∧ q ≠ j) ↔ (q ≤ n + 1 ∧ q ≠ j) by omega)
            rfl rfl]

theorem trainRun_lookups (perf : Nat → Nat → ℚ) (j : Nat) :
    (∀ k, k ≤ j →
      alistLookup (Forgetting.trainRun perf j).initial k = some (perf k k)) ∧
    (∀ k, k < j →
      alistLookup (Forgetting.trainRun perf j).last k = some (perf k j)) := by
  induction j with
  | zero =>
    constructor
    · intro k hk
      have hk0 : k = 0 := by omega
      subst hk0
      rw [show Forgetting.trainRun perf 0
            = Forgetting.evalStream perf 0 Forgetting.init 0 from rfl]
      rw [evalStream_initial, if_pos (by omega)]
    · intro k hk
      exact absurd hk (by omega)
  | succ j ih =>
    constructor
    · intro k hk
      rw [show Forgetting.trainRun perf (j + 1)
            = Forgetting.evalStream perf (j + 1) (Forgetting.trainRun perf j)
                (j + 1) from rfl]
      rw [evalStream_initial]
      by_cases hkj : k = j + 1
      · rw [if_pos (by omega), hkj]
      · rw [if_neg (by omega)]
        exact ih.1 k (by omega)
    · intro k hk
      rw [show Forgetting.trainRun perf (j + 1)
            = Forgetting.evalStream perf (j + 1) (Forgetting.trainRun perf j)
                (j + 1) from rfl]
      rw [evalStream_last, if_pos (by omega)]

/-- C5: the forgetting metric computes, for each previously learned
experience, the drop in performance on it after new experiences are learned:
in a run over experiences `0 … j` with performance profile `perf` (where
`perf k i` is the performance measured on experience `k` after training
through experience `i`), the value emitted for every earlier experience
`k < j` equals the performance measured on `k` when it was first learned
minus the performance measured on it after training on the later
experiences. -/
theorem forgetting_first_learned_minus_current (perf : Nat → Nat → ℚ)
    (k j : Nat) (h : k < j) :
    Forgetting.result (Forgetting.trainRun perf j) k
      = some (perf k k - perf k j) := by
  obtain ⟨hi, hl⟩ := trainRun_lookups perf j
  simp only [Forgetting.result, hi k (le_of_lt h), hl k h]

/-- Witness for C5 on a concrete performance profile and run: after training
experiences `0` and `1`, the forgetting emitted for experience `0` is its
first-learned performance minus its current performance. -/
theorem forgetting_first_learned_minus_current_witness :
    0 < 1 ∧
    Forgetting.result (Forgetting.trainRun (fun a b => (a : ℚ) + 2 * b) 1) 0
      = some ((fun a b => (a : ℚ) + 2 * b) 0 0
          - (fun a b => (a : ℚ) + 2 * b) 0 1) :=
  ⟨by decide,
   forgetting_first_learned_minus_current (fun a b => (a : ℚ) + 2 * b) 0 1
     (by decide)⟩

/-- C6: a benchmark constructed with `n_experiences = n` has a `train_stream`
and a `test_stream` of exactly `n` experiences, each experience carrying its
own data subset, and the subsets of two distinct experiences of a stream are
disjoint. -/
theorem splitMNIST_stream_structure (n : Nat)
    (trainData testData : List (Nat × Nat)) :
    ((SplitMNIST n trainData testData).train_stream).length = n ∧
    ((SplitMNIST n trainData testData).test_stream).length = n ∧
    (∀ (i j : Nat)
      (hi : i < ((SplitMNIST n trainData testData).train_stream).length)
      (hj : j < ((SplitMNIST n trainData testData).train_stream).length),
      i ≠ j → ∀ x,
        x ∈ (((SplitMNIST n trainData testData).train_stream).get
          ⟨i, hi⟩).dataSubset →
        x ∉ (((SplitMNIST n trainData testData).train_stream).get
          ⟨j, hj⟩).dataSubset) ∧
    (∀ (i j : Nat)
      (hi : i < ((SplitMNIST n trainData testData).test_stream).length)
      (hj : j < ((SplitMNIST n trainData testData).test_stream).length),
      i ≠ j → ∀ x,
        x ∈ (((SplitMNIST n trainData testData).test_stream).get
          ⟨i, hi⟩).dataSubset →
        x ∉ (((SplitMNIST n trainData testData).test_stream).get
          ⟨j, hj⟩).dataSubset) := by
  have hget : ∀ (d : List (Nat × Nat)) (i : Nat)
      (hi : i < ((List.range n).map (splitExperience n d)).length),
      ((List.range n).map (splitExperience n d)).get ⟨i, hi⟩
        = splitExperience n d i := by
    intro d i hi
    rw [List.get_eq_getElem, List.getElem_map, List.getElem_range]
  have hdisj : ∀ (d : List (Nat × Nat)) (i j : Nat), i ≠ j → ∀ x : Nat × Nat,
      x ∈ (splitExperience n d i).dataSubset →
      x ∉ (splitExperience n d j).dataSubset := by
    intro d i j hij x hxi hxj
    simp only [splitExperience, List.mem_filter, decide_eq_true_eq] at hxi hxj
    exact hij (hxi.2 ▸ hxj.2)
  refine ⟨by simp [SplitMNIST], by simp [SplitMNIST], ?_, ?_⟩
  · intro i j hi hj hij x hxi
    have hxi2 : x ∈ (((List.range n).map (splitExperience n trainData)).get
        ⟨i, hi⟩).dataSubset := hxi
    rw [hget trainData i hi] at hxi2
    show x ∉ (((List.range n).map (splitExperience n trainData)).get
        ⟨j, hj⟩).dataSubset
    rw [hget trainData j hj]
    exact hdisj trainData i j hij x hxi2
  · intro i j hi hj hij x hxi
    have hxi2 : x ∈ (((List.range n).map (splitExperience n testData)).get
        ⟨i, hi⟩).dataSubset := hxi
    rw [hget testData i hi] at hxi2
    show x ∉ (((List.range n).map (splitExperience n testData)).get
        ⟨j, hj⟩).dataSubset
    rw [hget testData j hj]
    exact hdisj testData i j hij x hxi2

/-- Witness for C6 at `n = 5` on concrete data: the streams have five
experiences and a sample of experience `0` is absent from experience `1`. -/
theorem splitMNIST_stream_structure_witness :
    (0 : Nat) ≠ 1 ∧
    ((0, 0) ∉ (((SplitMNIST 5 [(0, 0), (1, 1)] [(2, 2)]).train_stream).get
      ⟨1, by decide⟩).dataSubset) :=
  ⟨by decide,
   (splitMNIST_stream_structure 5 [(0, 0), (1, 1)] [(2, 2)]).2.2.1 0 1
     (by decide) (by decide) (by decide) (0, 0) (by decide)⟩

theorem lastMetricValues_append (es : List (String × ℚ)) (e : String × ℚ) :
    lastMetricValues (es ++ [e]) = alistSet (lastMetricValues es) e.1 e.2 := by
  simp [lastMetricValues, List.foldl_append]

/-- C7: the dictionary a `train`/`eval` call returns stores, for each tracked
metric, the last value recorded for that metric during that call: looking a
metric name up in the returned dictionary gives exactly the last value
emitted for that name (and nothing for a name never emitted). -/
theorem train_eval_returns_last_recorded (emissions : List (String × ℚ))
    (k : String) :
    alistLookup (lastMetricValues emissions) k = lastEmitted emissions k := by
  induction emissions using List.reverseRecOn with
  | nil => rfl
  | append_singleton es e ih =>
    rw [lastMetricValues_append, alistLookup_alistSet]
    simp only [lastEmitted, List.reverse_append, List.reverse_cons,
      List.reverse_nil, List.nil_append, List.singleton_append, List.find?_cons]
    by_cases hk : e.1 = k
    · simp [hk]
    · simp only [if_neg hk]
      rw [ih]
      simp [lastEmitted, hk]

/-- C8: the evaluation module exposes helper constructors covering accuracy,
loss, forgetting, backward transfer, confusion matrix, CPU, disk, GPU and RAM
usage, MACs and timing, and their results can all be passed together as
plugin metrics to an `EvaluationPlugin`: every metric each helper produces is
tracked by the plugin built from them, and with every flag enabled the plugin
tracks a metric of every kind. -/
theorem evaluation_module_helper_metrics (mb ep ex st sv : Bool) (nc : Nat) :
    (∀ m ∈ accuracy_metrics mb ep ex st,
      m ∈ (EvaluationPlugin.ofMetrics
        (allHelperResults mb ep ex st sv nc)).metrics) ∧
    (∀ m ∈ loss_metrics mb ep ex st,
      m ∈ (EvaluationPlugin.ofMetrics
        (allHelperResults mb ep ex st sv nc)).metrics) ∧
    (∀ m ∈ forgetting_metrics ex st,
      m ∈ (EvaluationPlugin.ofMetrics
        (allHelperResults mb ep ex st sv nc)).metrics) ∧
    (∀ m ∈ bwt_metrics ex st,
      m ∈ (EvaluationPlugin.ofMetrics
        (allHelperResults mb ep ex st sv nc)).metrics) ∧
    (∀ m ∈ confusion_matrix_metrics nc sv st,
      m ∈ (EvaluationPlugin.ofMetrics
        (allHelperResults mb ep ex st sv nc)).metrics) ∧
    (∀ m ∈ cpu_usage_metrics ex,
      m ∈ (EvaluationPlugin.ofMetrics
        (allHelperResults mb ep ex st sv nc)).metrics) ∧
    (∀ m ∈ disk_usage_metrics mb ep ex st,
      m ∈ (EvaluationPlugin.ofMetrics
        (allHelperResults mb ep ex st sv nc)).metrics) ∧
    (∀ m ∈ gpu_usage_metrics ex,
      m ∈ (EvaluationPlugin.ofMetrics
        (allHelperResults mb ep ex st sv nc)).metrics) ∧
    (∀ m ∈ MAC_metrics mb ep ex,
      m ∈ (EvaluationPlugin.ofMetrics
        (allHelperResults mb ep ex st sv nc)).metrics) ∧
    (∀ m ∈ ram_usage_metrics ex,
      m ∈ (EvaluationPlugin.ofMetrics
        (allHelperResults mb ep ex st sv nc)).metrics) ∧
    (∀ m ∈ timing_metrics ep,
      m ∈ (EvaluationPlugin.ofMetrics
        (allHelperResults mb ep ex st sv nc)).metrics) ∧
    (∀ kind : MetricKind, ∃ m ∈ (EvaluationPlugin.ofMetrics
        (allHelperResults true true true true true 10)).metrics,
      m.kind = kind) := by
  refine ⟨?_, ?_, ?_, ?_, ?_, ?_, ?_, ?_, ?_, ?_, ?_, ?_⟩
  · intro m hm
    exact List.mem_flatten.mpr ⟨_, by simp [allHelperResults], hm⟩
  · intro m hm
    exact List.mem_flatten.mpr ⟨_, by simp [allHelperResults], hm⟩
  · intro m hm
    exact List.mem_flatten.mpr ⟨forgetting_metrics ex st,
      by simp [allHelperResults], hm⟩
  · intro m hm
    exact List.mem_flatten.mpr ⟨bwt_metrics ex st,
      by simp [allHelperResults], hm⟩
  · intro m hm
    exact List.mem_flatten.mpr ⟨confusion_matrix_metrics nc sv st,
      by simp [allHelperResults], hm⟩
  · intro m hm
    exact List.mem_flatten.mpr ⟨cpu_usage_metrics ex,
      by simp [allHelperResults], hm⟩
  · intro m hm
    exact List.mem_flatten.mpr ⟨disk_usage_metrics mb ep ex st,
      by simp [allHelperResults], hm⟩
  · intro m hm
    exact List.mem_flatten.mpr ⟨gpu_usage_metrics ex,
      by simp [allHelperResults], hm⟩
  · intro m hm
    exact List.mem_flatten.mpr ⟨MAC_metrics mb ep ex,
      by simp [allHelperResults], hm⟩
  · intro m hm
    exact List.mem_flatten.mpr ⟨ram_usage_metrics ex,
      by simp [allHelperResults], hm⟩
  · intro m hm
    exact List.mem_flatten.mpr ⟨timing_metrics ep,
      by simp [allHelperResults], hm⟩
  · intro kind
    cases kind <;> decide

/-- Witness for C8: the minibatch accuracy plugin metric produced by
`accuracy_metrics` is tracked by the plugin built from all eleven helper
results. -/
theorem evaluation_module_helper_metrics_witness :
    (⟨MetricKind.accuracy, Granularity.minibatch⟩ : PluginMetricSpec)
      ∈ accuracy_metrics true true true true ∧
    (⟨MetricKind.accuracy, Granularity.minibatch⟩ : PluginMetricSpec)
      ∈ (EvaluationPlugin.ofMetrics
          (allHelperResults true true true true true 10)).metrics :=
  ⟨by decide,
   (evaluation_module_helper_metrics true true true true true 10).1
     ⟨MetricKind.accuracy, Granularity.minibatch⟩ (by decide)⟩

theorem andChainRuns_all (ok : CiCommand → Bool) (l : List CiCommand)
    (h : ∀ c ∈ l, ok c = true) : andChainRuns ok l = l := by
  induction l with
  | nil => rfl
  | cons c rest ih =>
    simp only [andChainRuns]
    rw [h c (List.mem_cons_self c rest)]
    simp [ih (fun d hd => h d (List.mem_cons_of_mem c hd))]

theorem mem_andChainRuns_cons (ok : CiCommand → Bool) (d : CiCommand)
    (l : List CiCommand) (c : CiCommand)
    (hmem : c ∈ andChainRuns ok (d :: l)) (hne : c ≠ d) :
    ok d = true ∧ c ∈ andChainRuns ok l := by
  simp only [andChainRuns] at hmem
  rcases List.mem_cons.mp hmem with h | h
  · exact absurd h hne
  · by_cases hok : ok d = true
    · refine ⟨hok, ?_⟩
      rw [if_pos hok] at h
      exact h
    · rw [if_neg hok] at h
      exact absurd h (List.not_mem_nil c)

/-- C9: the CI unit-test workflow triggers on pushes and pull requests to
`master` or `detection` touching Python sources, runs on Python 3.7 through
3.10, and its run script runs the unit tests, then uninstalls the optional
packages `higher`, `ctrl-benchmark`, `torchaudio`, `gym`, `pycocotools` and
`lvis`, and then runs `examples/eval_plugin.py`; under the script's `&&`
chaining, when every step succeeds the whole script runs, and
`eval_plugin.py` can only have run after the unit tests and the uninstall
step succeeded. -/
theorem ci_unit_test_workflow (ok : CiCommand → Bool)
    (hall : ∀ c ∈ unitTestWorkflow.runScript, ok c = true) :
    unitTestWorkflow.pushTrigger.branches = ["master", "detection"] ∧
    "**.py" ∈ unitTestWorkflow.pushTrigger.paths ∧
    unitTestWorkflow.prTrigger.branches = ["master", "detection"] ∧
    "**.py" ∈ unitTestWorkflow.prTrigger.paths ∧
    unitTestWorkflow.matrixPythonVersions = ["3.7", "3.8", "3.9", "3.10"] ∧
    unitTestWorkflow.runScript.take 4
      = [CiCommand.unittestDiscover "tests",
         CiCommand.echoMsg "Checking that optional dependencies are not needed",
         CiCommand.pipUninstall
           ["higher", "ctrl-benchmark", "torchaudio", "gym", "pycocotools",
            "lvis"],
         CiCommand.pythonScript "examples/eval_plugin.py"] ∧
    andChainRuns ok unitTestWorkflow.runScript = unitTestWorkflow.runScript ∧
    (∀ ok' : CiCommand → Bool,
      CiCommand.pythonScript "examples/eval_plugin.py"
          ∈ andChainRuns ok' unitTestWorkflow.runScript →
        ok' (CiCommand.unittestDiscover "tests") = true ∧
        ok' (CiCommand.pipUninstall optionalPackages) = true) := by
  refine ⟨rfl, by decide, rfl, by decide, rfl, rfl,
    andChainRuns_all ok _ hall, ?_⟩
  intro ok' hmem
  have h1 := mem_andChainRuns_cons ok' _ _ _ hmem (by decide)
  have h2 := mem_andChainRuns_cons ok' _ _ _ h1.2 (by decide)
  have h3 := mem_andChainRuns_cons ok' _ _ _ h2.2 (by decide)
  exact ⟨h1.1, h3.1⟩

/-- Witness for C9: with every command succeeding, the whole run script —
`eval_plugin.py` after the uninstall step included — executes. -/
theorem ci_unit_test_workflow_witness :
    (∀ c ∈ unitTestWorkflow.runScript, (fun _ => true) c = true) ∧
    andChainRuns (fun _ => true) unitTestWorkflow.runScript
      = unitTestWorkflow.runScript :=
  ⟨fun _ _ => rfl,
   (ci_unit_test_workflow (fun _ => true) (fun _ _ => rfl)).2.2.2.2.2.2.1⟩

/-- C1 (evaluating the code at the failing input): dispatching the
`after_training_epoch` lifecycle callback to a freshly constructed
`MyPluginMetric` does not emit the epoch accuracy — `_package_result` reads
the attribute `accuracy_metric`, which `__init__` never assigned (it
assigned `_accuracy_metric`), so the callback raises `AttributeError`
instead of emitting; likewise `after_training_iteration` passes three
arguments to the two-argument `Accuracy.update`, so the update raises
`TypeError` instead of folding in the minibatch. -/
theorem myPluginMetric_callbacks_raise_instead_of_emitting :
    MyPluginMetric.dispatch Callback.after_training_epoch exampleStrategy
      MyPluginMetric.init
      = Except.error (PyError.attributeError "accuracy_metric") ∧
    MyPluginMetric.dispatch Callback.after_training_iteration exampleStrategy
      MyPluginMetric.init
      = Except.error (PyError.typeError
          "update() takes 3 positional arguments but 4 were given") :=
  ⟨rfl, rfl⟩
